import Mathlib

/-!
# Business Metrics & Credit Scoring Engine — verification

Shallow embedding of the analytics engine
(`backend/app/services/analytics_engine.py`) and the credit scorer
(`backend/app/services/credit_score.py`).

Conventions of the embedding:
* decimal / float amounts are modelled as rationals (`ℚ`);
* timestamps (`created_at`, window bounds) are modelled as integers (`ℤ`);
* a SQL query over the transaction table is modelled as a `List.filter`
  over an in-memory list of transaction rows, and `GROUP BY currency /
  SUM(amount)` as one `(currency, total)` pair per distinct currency of
  the filtered rows;
* `async` database steps that can raise are modelled with `Except`.
-/

namespace Analytics

/-- A row of the transaction table: the fields read by the engine
(`Transaction.user_id`, `amount`, `currency`, `status`,
`transaction_type`, `created_at`). -/
structure Transaction where
  user_id : String
  amount : ℚ
  currency : String
  status : String
  transaction_type : String
  created_at : ℤ
deriving DecidableEq, Repr

/-- The `rates_to_usd` table of `_calculate_revenue_metrics` (duplicated
verbatim in `update_business_metrics`): `{'USD': 1.0, 'EUR': 1.05,
'ZMW': 0.037, 'GBP': 1.25, 'CAD': 0.74}`, with
`rates_to_usd.get(currency, 1.0)` defaulting to `1.0`. -/
def ratesToUsd (c : String) : ℚ :=
  if c = "USD" then 1
  else if c = "EUR" then 21/20
  else if c = "ZMW" then 37/1000
  else if c = "GBP" then 5/4
  else if c = "CAD" then 37/50
  else 1

/-- The WHERE clause of the current-period revenue query (and of the
transaction-count query): `user_id == user_id`, `status IN
("completed", "successful", "succeeded")`, `transaction_type ==
"payment"`, `created_at >= start_date`, `created_at <= end_date`. -/
def currentPaymentFilter (userId : String) (startDate endDate : ℤ)
    (t : Transaction) : Bool :=
  t.user_id == userId &&
  (t.status == "completed" || t.status == "successful" || t.status == "succeeded") &&
  t.transaction_type == "payment" &&
  decide (startDate ≤ t.created_at) && decide (t.created_at ≤ endDate)

/-- The WHERE clause of the previous-period revenue query:
`created_at >= prev_start`, `created_at < start_date` (note the strict
upper bound, unlike the current-period query). -/
def prevPaymentFilter (userId : String) (prevStart startDate : ℤ)
    (t : Transaction) : Bool :=
  t.user_id == userId &&
  (t.status == "completed" || t.status == "successful" || t.status == "succeeded") &&
  t.transaction_type == "payment" &&
  decide (prevStart ≤ t.created_at) && decide (t.created_at < startDate)

/-- The query `SELECT currency, SUM(amount) ... GROUP BY currency` over an
already-filtered row list: one `(currency, total)` pair per distinct
currency value. -/
def groupSumsByCurrency (txs : List Transaction) : List (String × ℚ) :=
  ((txs.map (·.currency)).dedup).map
    (fun c => (c, ((txs.filter (fun t => t.currency == c)).map (·.amount)).sum))

/-- The normalization loop `for currency, amount in totals:
revenue_usd += float(amount or 0) * rates_to_usd.get(currency, 1.0)`. -/
def revenueUsd (totals : List (String × ℚ)) : ℚ :=
  (totals.map (fun p => p.2 * ratesToUsd p.1)).sum

/-- The guard `revenue_growth = ((current - prev) / prev) * 100 if prev > 0 else 0`. -/
def revenueGrowth (current prev : ℚ) : ℚ :=
  if prev > 0 then ((current - prev) / prev) * 100 else 0

/-- The guard `avg_transaction_usd = (current_revenue_usd / tx_count) if tx_count > 0 else 0.0`. -/
def avgTransactionUsd (currentRevenueUsd : ℚ) (txCount : ℕ) : ℚ :=
  if txCount > 0 then currentRevenueUsd / txCount else 0

/-- The value-object part of `_calculate_revenue_metrics`'s returned dict. -/
structure RevenueData where
  total_revenue : ℚ
  previous_revenue : ℚ
  revenue_growth_percent : ℚ
  average_transaction_value : ℚ
deriving DecidableEq, Repr

/-- The method `AnalyticsEngine._calculate_revenue_metrics`: current- and
previous-period revenue grouped by currency and normalized to USD,
growth percent, and average transaction value over the matching count. -/
def calculateRevenueMetrics (txs : List Transaction) (userId : String)
    (startDate endDate : ℤ) : RevenueData :=
  let current_revenue_usd :=
    revenueUsd (groupSumsByCurrency (txs.filter (currentPaymentFilter userId startDate endDate)))
  let prev_start := startDate - (endDate - startDate)
  let prev_revenue_usd :=
    revenueUsd (groupSumsByCurrency (txs.filter (prevPaymentFilter userId prev_start startDate)))
  let revenue_growth := revenueGrowth current_revenue_usd prev_revenue_usd
  let tx_count := (txs.filter (currentPaymentFilter userId startDate endDate)).length
  let avg_transaction_usd := avgTransactionUsd current_revenue_usd tx_count
  { total_revenue := current_revenue_usd
    previous_revenue := prev_revenue_usd
    revenue_growth_percent := revenue_growth
    average_transaction_value := avg_transaction_usd }

/-! ## Risk calculator (`_calculate_risk_metrics`) -/

/-- WHERE clause of the total-count query of `_calculate_risk_metrics`:
user and window only (all statuses, all types); `created_at <= end_date`. -/
def riskTotalFilter (userId : String) (startDate endDate : ℤ)
    (t : Transaction) : Bool :=
  t.user_id == userId &&
  decide (startDate ≤ t.created_at) && decide (t.created_at ≤ endDate)

/-- WHERE clause of the failed-count query: additionally `status == "failed"`. -/
def riskFailedFilter (userId : String) (startDate endDate : ℤ)
    (t : Transaction) : Bool :=
  t.user_id == userId && t.status == "failed" &&
  decide (startDate ≤ t.created_at) && decide (t.created_at ≤ endDate)

/-- WHERE clause of the refunded-count query: additionally
`transaction_type == "refund"`. -/
def riskRefundFilter (userId : String) (startDate endDate : ℤ)
    (t : Transaction) : Bool :=
  t.user_id == userId && t.transaction_type == "refund" &&
  decide (startDate ≤ t.created_at) && decide (t.created_at ≤ endDate)

/-- The formula `risk_score = min(100, (failure_rate * 2) + (refund_rate * 3))`. -/
def riskScore (failureRate refundRate : ℚ) : ℚ :=
  min 100 (failureRate * 2 + refundRate * 3)

/-- The value-object part of `_calculate_risk_metrics`'s returned dict. -/
structure RiskData where
  failure_rate : ℚ
  refund_rate : ℚ
  risk_score : ℚ
  risk_level : String
deriving DecidableEq, Repr

/-- The method `AnalyticsEngine._calculate_risk_metrics`: failure and refund rates
over all of the user's transactions in the window, composite risk score
and level. The `risk_level` assignments mirror the source's sequence
`"low"`, then `if > 20: "medium"`, then `if > 40: "high"`. -/
def calculateRiskMetrics (txs : List Transaction) (userId : String)
    (startDate endDate : ℤ) : RiskData :=
  let total_transactions := (txs.filter (riskTotalFilter userId startDate endDate)).length
  let failed_transactions := (txs.filter (riskFailedFilter userId startDate endDate)).length
  let refunded_transactions := (txs.filter (riskRefundFilter userId startDate endDate)).length
  let failure_rate : ℚ :=
    if total_transactions > 0 then (failed_transactions : ℚ) / total_transactions * 100 else 0
  let refund_rate : ℚ :=
    if total_transactions > 0 then (refunded_transactions : ℚ) / total_transactions * 100 else 0
  let risk_score := riskScore failure_rate refund_rate
  let risk_level := "low"
  let risk_level := if risk_score > 20 then "medium" else risk_level
  let risk_level := if risk_score > 40 then "high" else risk_level
  { failure_rate := failure_rate
    refund_rate := refund_rate
    risk_score := risk_score
    risk_level := risk_level }

/-! ## Growth trend analyzer (`_calculate_growth_metrics`)

The monthly-revenue query groups the 180-day look-back by
`date_trunc('month', created_at)`; its result is modelled as the list of
monthly revenue buckets, in the order the loop sees them (chronological
month order). Only the classification logic below is the subject of the
growth-trend claims. -/

/-- The trend-classification block of `_calculate_growth_metrics`:
`growth_trend = "stable"`, overwritten when `len(monthly_data) >= 2`
using `recent_avg = sum(monthly_data[-2:]) / 2` (the guard
`if monthly_data[-2:]` is true whenever the length is ≥ 2) and
`older_avg = sum(monthly_data[:-2]) / max(1, len(monthly_data) - 2) if
monthly_data[:-2] else 0`. -/
def growthTrendLabel (monthlyData : List ℚ) : String :=
  if monthlyData.length ≥ 2 then
    let recent := monthlyData.drop (monthlyData.length - 2)
    let older := monthlyData.take (monthlyData.length - 2)
    let recent_avg : ℚ := if recent.isEmpty then 0 else recent.sum / 2
    let older_avg : ℚ :=
      if older.isEmpty then 0
      else older.sum / (max 1 (monthlyData.length - 2) : ℕ)
    if recent_avg > older_avg * (11/10) ∧ older_avg > 0 then "growing"
    else if recent_avg < older_avg * (9/10) ∧ older_avg > 0 then "declining"
    else "stable"
  else "stable"

/-- Modelled from the spec's words (§4.4 / claim C5), for comparison
with `growthTrendLabel`: fewer than 2 buckets is `"stable"`; otherwise
compare the mean of the most recent 2 buckets with the mean of all
earlier buckets (taken as 0 when there are no earlier buckets, so that
the `older > 0` side conditions fail and the result is `"stable"`). -/
def specGrowthLabel (monthlyData : List ℚ) : String :=
  if monthlyData.length < 2 then "stable"
  else
    let recentMean : ℚ := (monthlyData.drop (monthlyData.length - 2)).sum / 2
    let olderMean : ℚ :=
      if monthlyData.length = 2 then 0
      else (monthlyData.take (monthlyData.length - 2)).sum / ((monthlyData.length : ℚ) - 2)
    if recentMean > olderMean * (11/10) ∧ olderMean > 0 then "growing"
    else if recentMean < olderMean * (9/10) ∧ olderMean > 0 then "declining"
    else "stable"

/-! ## Credit scorer (`CreditScoreService.calculate_score`) -/

/-- The 90-day transaction statistics fetched by
`CreditScoreService.calculate_score` (`tx_count`, `tx_volume`,
`failed_tx`). -/
structure TxStats where
  tx_count : ℕ
  tx_volume : ℚ
  failed_tx : ℕ
deriving DecidableEq, Repr

/-- Revenue Impact section: `+200 if monthly_revenue > 50000, elif >
10000 then +100, elif > 1000 then +50`. -/
def revenueImpact (monthly_revenue : ℚ) : ℤ :=
  if monthly_revenue > 50000 then 200
  else if monthly_revenue > 10000 then 100
  else if monthly_revenue > 1000 then 50
  else 0

/-- Cash Flow Impact section: `+150 if cash_flow > 10000, elif > 0 then +75`. -/
def cashFlowImpact (cash_flow : ℚ) : ℤ :=
  if cash_flow > 10000 then 150
  else if cash_flow > 0 then 75
  else 0

/-- Profit Margin Impact section: `+100 if profit_margin > 0.2, elif >
0.05 then +50`. -/
def profitMarginImpact (profit_margin : ℚ) : ℤ :=
  if profit_margin > 1/5 then 100
  else if profit_margin > 1/20 then 50
  else 0

/-- Transaction Volume Stability section: `+150 if tx_count > 100, elif
> 20 then +75`. -/
def txCountImpact (tx_count : ℕ) : ℤ :=
  if tx_count > 100 then 150
  else if tx_count > 20 then 75
  else 0

/-- Negative Factors section: `-100 if failure_rate > 0.1, elif > 0.05
then -50` (returned here as the subtracted magnitude). -/
def failurePenalty (failure_rate : ℚ) : ℤ :=
  if failure_rate > 1/10 then 100
  else if failure_rate > 1/20 then 50
  else 0

/-- The scoring tail of `calculate_score` from the point where
`failure_rate` is already in hand: base 300, the four additive
sections, the penalty, then `score = max(300, min(850, score))`. -/
def scoreFromFactors (monthly_revenue cash_flow profit_margin : ℚ)
    (tx_count : ℕ) (failure_rate : ℚ) : ℤ :=
  let score : ℤ := 300
  let score := score + revenueImpact monthly_revenue
  let score := score + cashFlowImpact cash_flow
  let score := score + profitMarginImpact profit_margin
  let score := score + txCountImpact tx_count
  let score := score - failurePenalty failure_rate
  max 300 (min 850 score)

/-- The rating bands of `calculate_score`: `rating = "Poor"`, then
`if score >= 750: "Excellent" elif >= 700: "Good" elif >= 650: "Fair"`. -/
def ratingFor (score : ℤ) : String :=
  if score ≥ 750 then "Excellent"
  else if score ≥ 700 then "Good"
  else if score ≥ 650 then "Fair"
  else "Poor"

/-- The dict returned by `calculate_score`: score, rating, and the
factor breakdown. -/
structure ScoreResult where
  score : ℤ
  rating : String
  factors_revenue : ℚ
  factors_cash_flow : ℚ
  factors_tx_volume : ℚ
  factors_tx_count : ℕ
deriving DecidableEq, Repr

/-- The method `CreditScoreService.calculate_score`, given the snapshot fields it
reads (`metrics.monthly_revenue`, `metrics.cash_flow`,
`metrics.profit_margin`) and the 90-day transaction statistics it
queries itself: `failure_rate = failed_tx / tx_count if tx_count > 0
else 0`, scoring sections, clamp, and rating bands `>= 750 Excellent,
>= 700 Good, >= 650 Fair, else Poor`. -/
def calculateScore (monthly_revenue cash_flow profit_margin : ℚ)
    (stats : TxStats) : ScoreResult :=
  let failure_rate : ℚ :=
    if stats.tx_count > 0 then (stats.failed_tx : ℚ) / stats.tx_count else 0
  let score := scoreFromFactors monthly_revenue cash_flow profit_margin
    stats.tx_count failure_rate
  let rating := ratingFor score
  { score := score
    rating := rating
    factors_revenue := monthly_revenue
    factors_cash_flow := cash_flow
    factors_tx_volume := stats.tx_volume
    factors_tx_count := stats.tx_count }

/-! ## Snapshot writer (`update_business_metrics`) and backfill
(`backfill_credit_scores`)

A `BusinessMetrics` row is modelled with the fields the claims touch.
The snapshot store is a list of rows; the awaited sub-computations that
can raise (the aggregation queries, the cash-flow query, the scorer's
90-day statistics query, and the final commit) are modelled as `Except`
parameters, so the `try/except` + `rollback` control flow of
`update_business_metrics` is explicit. -/

/-- The persisted `BusinessMetrics` row (fields relevant to the claims). -/
structure BusinessMetricsRow where
  user_id : String
  monthly_revenue : ℚ
  monthly_expenses : ℚ
  profit_margin : ℚ
  cash_flow : ℚ
  avg_order_value : ℚ
  refund_rate : ℚ
  payment_failure_rate : ℚ
  credit_score : Option ℤ
deriving DecidableEq, Repr

/-- Storage / computation failure signal. -/
structure Err where
  msg : String
deriving DecidableEq, Repr

/-- The method `AnalyticsEngine.update_business_metrics`: runs the aggregation
steps in order; any `.error` propagates out of the `try` block, the
`except` handler rolls the session back (the store is returned
unchanged) and re-raises. Only when every step succeeds is the new row
built — with `monthly_expenses = Decimal('0')` and `profit_margin =
Decimal('0.20')` hard-coded — scored via `calculate_score` on that very
row, added, and committed (appended to the store). After the commit the
source runs `await self.db.refresh(metrics)`: if that step fails, the
handler's rollback cannot undo the already-durable commit, so the error
is re-raised to the caller while the appended row stays in the store. -/
def updateBusinessMetrics (userId : String) (store : List BusinessMetricsRow)
    (revenueStep : Except Err RevenueData) (riskStep : Except Err RiskData)
    (txnStep : Except Err Unit) (cashFlowStep : Except Err ℚ)
    (txStatsStep : Except Err TxStats) (commitStep : Except Err Unit)
    (refreshStep : Except Err Unit) :
    Except Err BusinessMetricsRow × List BusinessMetricsRow :=
  match revenueStep with
  | .error e => (.error e, store)
  | .ok revenue_data =>
  match riskStep with
  | .error e => (.error e, store)
  | .ok risk_data =>
  match txnStep with
  | .error e => (.error e, store)
  | .ok _ =>
  match cashFlowStep with
  | .error e => (.error e, store)
  | .ok total_cash_flow_usd =>
  match txStatsStep with
  | .error e => (.error e, store)
  | .ok tx_stats =>
    let metrics : BusinessMetricsRow :=
      { user_id := userId
        monthly_revenue := revenue_data.total_revenue
        monthly_expenses := 0
        profit_margin := 1/5
        cash_flow := total_cash_flow_usd
        avg_order_value := revenue_data.average_transaction_value
        refund_rate := risk_data.refund_rate
        payment_failure_rate := risk_data.failure_rate
        credit_score := none }
    let score_result := calculateScore metrics.monthly_revenue
      metrics.cash_flow metrics.profit_margin tx_stats
    let metrics := { metrics with credit_score := some score_result.score }
    match commitStep with
    | .error e => (.error e, store)
    | .ok _ =>
      match refreshStep with
      | .error e => (.error e, store ++ [metrics])
      | .ok _ => (.ok metrics, store ++ [metrics])

/-- The method `AnalyticsEngine.backfill_credit_scores`: every row whose
`credit_score` is null gets `calculate_score(...).score` (using the
row's stored aggregate fields plus the live 90-day transaction
statistics of its user), every other row is left as is; also returns
the number of rows updated (`count`). -/
def backfillCreditScores (txStats : String → TxStats)
    (store : List BusinessMetricsRow) : List BusinessMetricsRow × ℕ :=
  (store.map (fun m =>
      if m.credit_score = none then
        { m with credit_score := some (calculateScore m.monthly_revenue
            m.cash_flow m.profit_margin (txStats m.user_id)).score }
      else m),
   (store.filter (fun m => m.credit_score = none)).length)

/-! ## Helper lemmas: a `GROUP BY` sum re-weighted per group equals the
direct per-row weighted sum -/

lemma sum_map_add {κ : Type} (l : List κ) (f g : κ → ℚ) :
    (l.map (fun c => f c + g c)).sum = (l.map f).sum + (l.map g).sum := by
  induction l with
  | nil => simp
  | cons d D ih => simp only [List.map_cons, List.sum_cons, ih]; ring

lemma sum_map_ite_zero {κ : Type} [DecidableEq κ] (c0 : κ) (f : κ → ℚ)
    (D : List κ) (h : c0 ∉ D) :
    (D.map (fun c => if c0 = c then f c else 0)).sum = 0 := by
  apply List.sum_eq_zero
  intro x hx
  rcases List.mem_map.mp hx with ⟨c, hc, rfl⟩
  have : c0 ≠ c := fun hEq => h (hEq ▸ hc)
  simp [this]

lemma sum_map_ite_single {κ : Type} [DecidableEq κ] (c0 : κ) (f : κ → ℚ) :
    ∀ D : List κ, D.Nodup → c0 ∈ D →
      (D.map (fun c => if c0 = c then f c else 0)).sum = f c0 := by
  intro D
  induction D with
  | nil => intro _ h; exact absurd h (List.not_mem_nil c0)
  | cons d D ih =>
    intro hnd hmem
    rcases List.mem_cons.mp hmem with hEq | hmem'
    · subst hEq
      have hnotin : c0 ∉ D := (List.nodup_cons.mp hnd).1
      simp [sum_map_ite_zero c0 f D hnotin]
    · have hne : c0 ≠ d := by
        intro hEq
        exact (List.nodup_cons.mp hnd).1 (hEq ▸ hmem')
      simp only [List.map_cons, List.sum_cons, if_neg hne, zero_add]
      exact ih (List.nodup_cons.mp hnd).2 hmem'

lemma grouped_weighted_sum {α : Type} (key : α → String) (w : String → ℚ)
    (g : α → ℚ) :
    ∀ l : List α,
      (((l.map key).dedup).map
        (fun c => ((l.filter (fun x => key x == c)).map g).sum * w c)).sum
      = (l.map (fun x => g x * w (key x))).sum := by
  intro l
  induction l with
  | nil => simp
  | cons x xs ih =>
    have hfun : ∀ c,
        (((x :: xs).filter (fun t => key t == c)).map g).sum * w c
        = ((xs.filter (fun t => key t == c)).map g).sum * w c
          + (if key x = c then g x * w c else 0) := by
      intro c
      by_cases h : key x = c
      · rw [List.filter_cons]
        simp only [h, beq_self_eq_true, if_pos, List.map_cons, List.sum_cons,
          if_pos rfl]
        ring
      · rw [List.filter_cons]
        have hb : (key x == c) = false := beq_eq_false_iff_ne.mpr h
        simp [hb, h]
    by_cases hmem : key x ∈ xs.map key
    · rw [List.map_cons, List.dedup_cons_of_mem hmem]
      have hrw :
          ((xs.map key).dedup).map
            (fun c => (((x :: xs).filter (fun t => key t == c)).map g).sum * w c)
          = ((xs.map key).dedup).map
            (fun c => ((xs.filter (fun t => key t == c)).map g).sum * w c
              + (if key x = c then g x * w c else 0)) :=
        List.map_congr_left (fun c _ => hfun c)
      rw [hrw, sum_map_add, ih,
        sum_map_ite_single (key x) (fun c => g x * w c) ((xs.map key).dedup)
          (List.nodup_dedup _) (List.mem_dedup.mpr hmem)]
      simp only [List.map_cons, List.sum_cons]
      ring
    · rw [List.map_cons, List.dedup_cons_of_not_mem hmem, List.map_cons,
        List.sum_cons]
      have hx0 : xs.filter (fun t => key t == key x) = [] := by
        apply List.filter_eq_nil_iff.mpr
        intro a ha
        simp only [beq_iff_eq]
        intro hEq
        exact hmem (List.mem_map.mpr ⟨a, ha, hEq⟩)
      have hhead :
          (((x :: xs).filter (fun t => key t == key x)).map g).sum * w (key x)
          = g x * w (key x) := by
        rw [List.filter_cons]
        simp [hx0]
      have htail :
          ((xs.map key).dedup).map
            (fun c => (((x :: xs).filter (fun t => key t == c)).map g).sum * w c)
          = ((xs.map key).dedup).map
            (fun c => ((xs.filter (fun t => key t == c)).map g).sum * w c) := by
        apply List.map_congr_left
        intro c hc
        have hne : key x ≠ c := by
          intro hEq
          exact hmem (hEq ▸ List.mem_dedup.mp hc)
        rw [List.filter_cons]
        have hb : (key x == c) = false := beq_eq_false_iff_ne.mpr hne
        simp [hb]
      rw [hhead, htail, ih, List.map_cons, List.sum_cons]

/-- The normalized revenue of the `GROUP BY currency` totals equals the
direct per-transaction sum of `amount * rate(currency)`. -/
lemma revenueUsd_groupSums (l : List Transaction) :
    revenueUsd (groupSumsByCurrency l)
    = (l.map (fun t => t.amount * ratesToUsd t.currency)).sum := by
  unfold revenueUsd groupSumsByCurrency
  rw [List.map_map]
  exact grouped_weighted_sum (fun t => t.currency) ratesToUsd (fun t => t.amount) l

/-! ## Claims -/

/-- C1: the Period Aggregator's `total_revenue` is the sum, over exactly
the transactions passing the status/type/user/window filter, of
`amount * rate(currency)`, with the fixed rate table (USD=1.0, EUR=1.05,
ZMW=0.037, GBP=1.25, CAD=0.74) and unknown currencies at rate 1.0; a
transaction failing a filter contributes nothing and none is counted
under more than one currency (the grouped sum equals the direct
per-transaction sum). -/
theorem C1_total_revenue_filtered_sum (txs : List Transaction)
    (userId : String) (startDate endDate : ℤ) :
    ((calculateRevenueMetrics txs userId startDate endDate).total_revenue
      = ((txs.filter (currentPaymentFilter userId startDate endDate)).map
          (fun t => t.amount * ratesToUsd t.currency)).sum)
    ∧ (∀ t : Transaction, currentPaymentFilter userId startDate endDate t = true ↔
        t.user_id = userId
        ∧ (t.status = "completed" ∨ t.status = "successful" ∨ t.status = "succeeded")
        ∧ t.transaction_type = "payment"
        ∧ startDate ≤ t.created_at ∧ t.created_at ≤ endDate)
    ∧ ratesToUsd "USD" = 1 ∧ ratesToUsd "EUR" = 105/100
    ∧ ratesToUsd "ZMW" = 37/1000 ∧ ratesToUsd "GBP" = 125/100
    ∧ ratesToUsd "CAD" = 74/100
    ∧ (∀ c : String, c ∉ (["USD", "EUR", "ZMW", "GBP", "CAD"] : List String) →
        ratesToUsd c = 1) := by
  refine ⟨?_, ?_, by simp [ratesToUsd], by simp [ratesToUsd]; norm_num,
    by simp [ratesToUsd], by simp [ratesToUsd]; norm_num,
    by simp [ratesToUsd]; norm_num, ?_⟩
  · simp only [calculateRevenueMetrics]
    exact revenueUsd_groupSums _
  · intro t
    simp only [currentPaymentFilter, Bool.and_eq_true, Bool.or_eq_true,
      beq_iff_eq, decide_eq_true_eq]
    tauto
  · intro c hc
    simp only [List.mem_cons, List.not_mem_nil, or_false, not_or] at hc
    obtain ⟨h1, h2, h3, h4, h5⟩ := hc
    simp [ratesToUsd, h1, h2, h3, h4, h5]

/-- C1 witness: the theorem applied at a concrete transaction list, a
concrete unknown-currency code, and a concrete filter check. -/
theorem C1_witness :
    (calculateRevenueMetrics
        [{ user_id := "u", amount := 100, currency := "USD",
           status := "completed", transaction_type := "payment", created_at := 5 },
         { user_id := "u", amount := 50, currency := "EUR",
           status := "failed", transaction_type := "payment", created_at := 5 }]
        "u" 0 10).total_revenue
      = ((([{ user_id := "u", amount := 100, currency := "USD",
              status := "completed", transaction_type := "payment", created_at := 5 },
            { user_id := "u", amount := 50, currency := "EUR",
              status := "failed", transaction_type := "payment", created_at := 5 }]
           : List Transaction).filter (currentPaymentFilter "u" 0 10)).map
            (fun t => t.amount * ratesToUsd t.currency)).sum
    ∧ ratesToUsd "KES" = 1 := by
  refine ⟨(C1_total_revenue_filtered_sum _ "u" 0 10).1, ?_⟩
  exact (C1_total_revenue_filtered_sum [] "u" 0 10).2.2.2.2.2.2.2 "KES" (by decide)

/-- C7 counterexample: a completed payment whose `created_at` equals the
window's end (`created_at = 10`, window `[0, 10]`) is *included* by the
current-period aggregation — `total_revenue` is 100, not 0 — so the
windows are not half-open `[start, end)` as claimed; the risk-window
filter also accepts it. -/
theorem C7_counterexample :
    (calculateRevenueMetrics
        [{ user_id := "u", amount := 100, currency := "USD",
           status := "completed", transaction_type := "payment", created_at := 10 }]
        "u" 0 10).total_revenue = 100
    ∧ riskTotalFilter "u" 0 10
        { user_id := "u", amount := 100, currency := "USD",
          status := "completed", transaction_type := "payment", created_at := 10 } = true := by
  constructor
  · simp [calculateRevenueMetrics, currentPaymentFilter, prevPaymentFilter,
      groupSumsByCurrency, revenueUsd, ratesToUsd, List.filter, List.dedup]
  · decide

/-- C7 amended: the current-period revenue, count, and risk aggregations
use the *closed* interval `[start, end]` — a transaction is included iff
it passes the user/status/type filters and `start ≤ created_at ≤ end`,
so a transaction with `created_at = end` is included; only the
previous-period window is half-open, `[prev_start, start)`. -/
theorem C7_window_bounds (userId : String) (startDate endDate : ℤ)
    (t : Transaction) :
    (currentPaymentFilter userId startDate endDate t = true ↔
      t.user_id = userId
      ∧ (t.status = "completed" ∨ t.status = "successful" ∨ t.status = "succeeded")
      ∧ t.transaction_type = "payment"
      ∧ startDate ≤ t.created_at ∧ t.created_at ≤ endDate)
    ∧ (riskTotalFilter userId startDate endDate t = true ↔
        t.user_id = userId ∧ startDate ≤ t.created_at ∧ t.created_at ≤ endDate)
    ∧ (riskFailedFilter userId startDate endDate t = true ↔
        t.user_id = userId ∧ t.status = "failed"
        ∧ startDate ≤ t.created_at ∧ t.created_at ≤ endDate)
    ∧ (riskRefundFilter userId startDate endDate t = true ↔
        t.user_id = userId ∧ t.transaction_type = "refund"
        ∧ startDate ≤ t.created_at ∧ t.created_at ≤ endDate)
    ∧ (prevPaymentFilter userId startDate endDate t = true ↔
        t.user_id = userId
        ∧ (t.status = "completed" ∨ t.status = "successful" ∨ t.status = "succeeded")
        ∧ t.transaction_type = "payment"
        ∧ startDate ≤ t.created_at ∧ t.created_at < endDate) := by
  refine ⟨?_, ?_, ?_, ?_, ?_⟩ <;>
    · simp only [currentPaymentFilter, riskTotalFilter, riskFailedFilter,
        riskRefundFilter, prevPaymentFilter, Bool.and_eq_true, Bool.or_eq_true,
        beq_iff_eq, decide_eq_true_eq]
      tauto

/-- C8: `revenue_growth_percent` equals `(current - previous) / previous
* 100` whenever the previous-period revenue is strictly positive and 0
whenever it is 0 (`growth_percent(0,0) = 0`,
`growth_percent(150,100) = 50`); `average_transaction_value` equals
`total_revenue` divided by the matching transaction count, and 0 when
that count is 0. -/
theorem C8_growth_percent_and_average (txs : List Transaction)
    (userId : String) (startDate endDate : ℤ) :
    ((calculateRevenueMetrics txs userId startDate endDate).previous_revenue > 0 →
      (calculateRevenueMetrics txs userId startDate endDate).revenue_growth_percent
      = ((calculateRevenueMetrics txs userId startDate endDate).total_revenue
          - (calculateRevenueMetrics txs userId startDate endDate).previous_revenue)
        / (calculateRevenueMetrics txs userId startDate endDate).previous_revenue * 100)
    ∧ ((calculateRevenueMetrics txs userId startDate endDate).previous_revenue = 0 →
        (calculateRevenueMetrics txs userId startDate endDate).revenue_growth_percent = 0)
    ∧ (0 < (txs.filter (currentPaymentFilter userId startDate endDate)).length →
        (calculateRevenueMetrics txs userId startDate endDate).average_transaction_value
        = (calculateRevenueMetrics txs userId startDate endDate).total_revenue
          / ((txs.filter (currentPaymentFilter userId startDate endDate)).length : ℚ))
    ∧ ((txs.filter (currentPaymentFilter userId startDate endDate)).length = 0 →
        (calculateRevenueMetrics txs userId startDate endDate).average_transaction_value = 0)
    ∧ revenueGrowth 0 0 = 0
    ∧ revenueGrowth 150 100 = 50 := by
  simp only [calculateRevenueMetrics]
  refine ⟨?_, ?_, ?_, ?_, ?_, ?_⟩
  · intro h
    rw [revenueGrowth, if_pos h]
  · intro h
    rw [revenueGrowth, if_neg (by rw [h]; exact lt_irrefl 0)]
  · intro h
    rw [avgTransactionUsd, if_pos h]
  · intro h
    rw [avgTransactionUsd, if_neg (by omega)]
  · rw [revenueGrowth]
    norm_num
  · rw [revenueGrowth]
    norm_num

/-- C8 witness: the theorem applied at the empty transaction list (both
revenues 0, count 0) and at the claim's concrete growth examples. -/
theorem C8_witness :
    revenueGrowth 0 0 = 0 ∧ revenueGrowth 150 100 = 50
    ∧ (calculateRevenueMetrics [] "u" 0 10).revenue_growth_percent = 0
    ∧ (calculateRevenueMetrics [] "u" 0 10).average_transaction_value = 0 := by
  refine ⟨(C8_growth_percent_and_average [] "u" 0 10).2.2.2.2.1,
    (C8_growth_percent_and_average [] "u" 0 10).2.2.2.2.2,
    (C8_growth_percent_and_average [] "u" 0 10).2.1 ?_,
    (C8_growth_percent_and_average [] "u" 0 10).2.2.2.1 ?_⟩
  · rfl
  · rfl

/-- C2: the Credit Scorer returns the integer `max 300 (min 850 (300 +
capped bonuses - failure penalty))`, always in `[300, 850]`, with
rating `"Excellent"` iff score ≥ 750, `"Good"` iff 700 ≤ score < 750,
`"Fair"` iff 650 ≤ score < 700 and `"Poor"` otherwise; the scenario
(monthly_revenue 60000, cash_flow 15000, profit_margin 0.25,
tx_count_90d 120, failure_rate_90d 0.02) gives raw score 900, final
score 850, rating `"Excellent"`. -/
theorem C2_credit_score_clamp_and_rating (mr cf pm : ℚ) (stats : TxStats) :
    ((calculateScore mr cf pm stats).score
      = max 300 (min 850 (300 + revenueImpact mr + cashFlowImpact cf
          + profitMarginImpact pm + txCountImpact stats.tx_count
          - failurePenalty
              (if stats.tx_count > 0 then (stats.failed_tx : ℚ) / stats.tx_count else 0))))
    ∧ 300 ≤ (calculateScore mr cf pm stats).score
    ∧ (calculateScore mr cf pm stats).score ≤ 850
    ∧ ((calculateScore mr cf pm stats).rating = "Excellent" ↔
        750 ≤ (calculateScore mr cf pm stats).score)
    ∧ ((calculateScore mr cf pm stats).rating = "Good" ↔
        700 ≤ (calculateScore mr cf pm stats).score
        ∧ (calculateScore mr cf pm stats).score < 750)
    ∧ ((calculateScore mr cf pm stats).rating = "Fair" ↔
        650 ≤ (calculateScore mr cf pm stats).score
        ∧ (calculateScore mr cf pm stats).score < 700)
    ∧ ((calculateScore mr cf pm stats).rating = "Poor" ↔
        (calculateScore mr cf pm stats).score < 650)
    ∧ 300 + revenueImpact 60000 + cashFlowImpact 15000
        + profitMarginImpact (1/4) + txCountImpact 120 - failurePenalty (1/50) = 900
    ∧ scoreFromFactors 60000 15000 (1/4) 120 (1/50) = 850
    ∧ ratingFor (scoreFromFactors 60000 15000 (1/4) 120 (1/50)) = "Excellent" := by
  have hscen : (300 : ℤ) + revenueImpact 60000 + cashFlowImpact 15000
      + profitMarginImpact (1/4) + txCountImpact 120 - failurePenalty (1/50) = 900 := by
    norm_num [revenueImpact, cashFlowImpact, profitMarginImpact, txCountImpact,
      failurePenalty]
  have hclamp : scoreFromFactors 60000 15000 (1/4) 120 (1/50) = 850 := by
    rw [scoreFromFactors]
    rw [hscen]
    rfl
  refine ⟨rfl, le_max_left _ _,
    max_le (by norm_num) (le_trans (min_le_left _ _) (by norm_num)), ?_, ?_, ?_, ?_,
    hscen, hclamp, by rw [hclamp]; rfl⟩ <;>
  · simp only [calculateScore, ratingFor]
    split_ifs <;> simp <;> omega

/-- C3 counterexample: two runs whose snapshot stores agree on every
stored aggregate field (monthly_revenue 60000, cash_flow 15000,
profit_margin 0.25) but whose transaction stores differ (0 vs 120
transactions in the 90-day look-back) produce different credit scores —
750 vs 850 — so the score is *not* a function of the snapshot's stored
fields only: `calculate_score` re-queries the raw transactions. -/
theorem C3_counterexample :
    (calculateScore 60000 15000 (1/4) ⟨0, 0, 0⟩).score = 750
    ∧ (calculateScore 60000 15000 (1/4) ⟨120, 0, 0⟩).score = 850
    ∧ (calculateScore 60000 15000 (1/4) ⟨0, 0, 0⟩).score
      ≠ (calculateScore 60000 15000 (1/4) ⟨120, 0, 0⟩).score := by
  refine ⟨?_, ?_, ?_⟩ <;>
    norm_num [calculateScore, scoreFromFactors, revenueImpact, cashFlowImpact,
      profitMarginImpact, txCountImpact, failurePenalty]

/-- C3 amended: the credit score computed for a persisted snapshot
depends on the snapshot's stored fields *and* on the 90-day transaction
statistics (transaction count and failed-transaction count) re-queried
from the transaction store at scoring time; two scoring runs that agree
on the snapshot fields and on those statistics yield an identical score
and rating (the result ignores every other difference, e.g. in
`tx_volume`). -/
theorem C3_score_determined_by_fields_and_tx_stats (mr cf pm : ℚ)
    (s1 s2 : TxStats) (hc : s1.tx_count = s2.tx_count)
    (hf : s1.failed_tx = s2.failed_tx) :
    (calculateScore mr cf pm s1).score = (calculateScore mr cf pm s2).score
    ∧ (calculateScore mr cf pm s1).rating = (calculateScore mr cf pm s2).rating := by
  simp [calculateScore, hc, hf]

/-- C3 witness: the amended theorem applied to two concrete stat
records differing only in `tx_volume`. -/
theorem C3_witness :
    (calculateScore 100 0 0 ⟨5, 7, 1⟩).score = (calculateScore 100 0 0 ⟨5, 9, 1⟩).score
    ∧ (calculateScore 100 0 0 ⟨5, 7, 1⟩).rating
      = (calculateScore 100 0 0 ⟨5, 9, 1⟩).rating :=
  C3_score_determined_by_fields_and_tx_stats 100 0 0 ⟨5, 7, 1⟩ ⟨5, 9, 1⟩ rfl rfl

/-- Ten transactions of one user inside the window `[0, 100]`: seven
completed payments, two failed payments, one refund — claim C4's
scenario. -/
def riskSample : List Transaction :=
  [⟨"u", 10, "USD", "completed", "payment", 1⟩,
   ⟨"u", 10, "USD", "completed", "payment", 2⟩,
   ⟨"u", 10, "USD", "completed", "payment", 3⟩,
   ⟨"u", 10, "USD", "completed", "payment", 4⟩,
   ⟨"u", 10, "USD", "completed", "payment", 5⟩,
   ⟨"u", 10, "USD", "completed", "payment", 6⟩,
   ⟨"u", 10, "USD", "completed", "payment", 7⟩,
   ⟨"u", 10, "USD", "failed", "payment", 8⟩,
   ⟨"u", 10, "USD", "failed", "payment", 9⟩,
   ⟨"u", 10, "USD", "completed", "refund", 10⟩]

/-- C4: `risk_score = min(100, failure_rate*2 + refund_rate*3)` is
monotonically non-decreasing in each rate and lies in `[0, 100]` for
rates in `[0, 100]`; the 10-transaction scenario (2 failed, 1 refund)
gives failure_rate 20, refund_rate 10, risk_score 70 and level "high". -/
theorem C4_risk_score_bounds_monotone (fr rr fr2 rr2 : ℚ)
    (h0 : 0 ≤ fr) (h1 : fr ≤ 100) (h2 : 0 ≤ rr) (h3 : rr ≤ 100) :
    (0 ≤ riskScore fr rr ∧ riskScore fr rr ≤ 100)
    ∧ (fr ≤ fr2 → riskScore fr rr ≤ riskScore fr2 rr)
    ∧ (rr ≤ rr2 → riskScore fr rr ≤ riskScore fr rr2)
    ∧ (calculateRiskMetrics riskSample "u" 0 100).failure_rate = 20
    ∧ (calculateRiskMetrics riskSample "u" 0 100).refund_rate = 10
    ∧ (calculateRiskMetrics riskSample "u" 0 100).risk_score = 70
    ∧ (calculateRiskMetrics riskSample "u" 0 100).risk_level = "high" := by
  refine ⟨⟨le_min (by norm_num) (by linarith), min_le_left _ _⟩, ?_, ?_, ?_, ?_, ?_, ?_⟩
  · intro h
    exact min_le_min (le_refl _) (by linarith)
  · intro h
    exact min_le_min (le_refl _) (by linarith)
  all_goals
    have ht : (riskSample.filter (riskTotalFilter "u" 0 100)).length = 10 := rfl
    have hf : (riskSample.filter (riskFailedFilter "u" 0 100)).length = 2 := rfl
    have hr : (riskSample.filter (riskRefundFilter "u" 0 100)).length = 1 := rfl
    simp only [calculateRiskMetrics, ht, hf, hr, riskScore]
    norm_num [min_def]

/-- C4 witness: the theorem applied at the scenario's rates (20, 10)
against the larger rates (30, 20). -/
theorem C4_witness :
    (0 ≤ riskScore 20 10 ∧ riskScore 20 10 ≤ 100)
    ∧ riskScore 20 10 ≤ riskScore 30 10
    ∧ riskScore 20 10 ≤ riskScore 20 20 := by
  have h := C4_risk_score_bounds_monotone 20 10 30 20 (by norm_num) (by norm_num)
    (by norm_num) (by norm_num)
  exact ⟨h.1, h.2.1 (by norm_num), h.2.2.1 (by norm_num)⟩

/-- C5: the Growth Trend Analyzer's classification agrees, on every
monthly revenue series, with the specification's description — "stable"
for fewer than 2 buckets, otherwise "growing" iff the mean of the most
recent 2 buckets exceeds 1.1× the mean of all earlier buckets (with
that mean positive), "declining" iff it is below 0.9× that mean (with
that mean positive), and "stable" in every other case. -/
theorem C5_growth_trend_matches_spec (data : List ℚ) :
    growthTrendLabel data = specGrowthLabel data := by
  rcases Nat.lt_or_ge data.length 2 with h | h
  · rw [growthTrendLabel, specGrowthLabel,
      if_neg (show ¬data.length ≥ 2 by omega), if_pos h]
  · rw [growthTrendLabel, specGrowthLabel, if_pos h,
      if_neg (show ¬data.length < 2 by omega)]
    have hrecNE : (data.drop (data.length - 2)).isEmpty = false := by
      rcases hD : data.drop (data.length - 2) with _ | ⟨a, t⟩
      · have := congrArg List.length hD
        rw [List.length_drop] at this
        simp at this
        omega
      · rfl
    have hR : (if (data.drop (data.length - 2)).isEmpty then (0:ℚ)
          else (data.drop (data.length - 2)).sum / 2)
        = (data.drop (data.length - 2)).sum / 2 := by
      rw [hrecNE]
      simp
    by_cases h2 : data.length = 2
    · have htake : data.take (data.length - 2) = [] := by
        rw [h2]
        rfl
      have hO : (if (data.take (data.length - 2)).isEmpty then (0:ℚ)
            else (data.take (data.length - 2)).sum / (max 1 (data.length - 2) : ℕ))
          = (if data.length = 2 then (0:ℚ)
            else (data.take (data.length - 2)).sum / ((data.length : ℚ) - 2)) := by
        rw [htake, if_pos h2]
        simp
      simp only [hR, hO]
    · have htakeNE : (data.take (data.length - 2)).isEmpty = false := by
        rcases hD : data.take (data.length - 2) with _ | ⟨a, t⟩
        · have := congrArg List.length hD
          rw [List.length_take] at this
          simp at this
          omega
        · rfl
      have hmax : max 1 (data.length - 2) = data.length - 2 := by omega
      have hcast : ((data.length - 2 : ℕ) : ℚ) = (data.length : ℚ) - 2 := by
        push_cast [Nat.cast_sub h]
        ring
      have hO : (if (data.take (data.length - 2)).isEmpty then (0:ℚ)
            else (data.take (data.length - 2)).sum / (max 1 (data.length - 2) : ℕ))
          = (if data.length = 2 then (0:ℚ)
            else (data.take (data.length - 2)).sum / ((data.length : ℚ) - 2)) := by
        rw [htakeNE, if_neg h2, hmax, hcast]
        simp
      simp only [hR, hO]

/-- Every pair of a list zipped with its own map satisfies
`second = f first`. -/
lemma mem_zip_map_self {α : Type} (f : α → α) (l : List α) :
    ∀ pr ∈ l.zip (l.map f), pr.2 = f pr.1 := by
  induction l with
  | nil =>
    intro pr h
    simp at h
  | cons a t ih =>
    intro pr h
    rw [List.map_cons, List.zip_cons_cons] at h
    rcases List.mem_cons.mp h with rfl | h'
    · rfl
    · exact ih pr h'

/-- Every row produced by a backfill run carries a non-null score. -/
lemma backfill_all_scored (ts : String → TxStats)
    (store : List BusinessMetricsRow) :
    ∀ r ∈ (backfillCreditScores ts store).1, r.credit_score ≠ none := by
  intro r hr
  simp only [backfillCreditScores, List.mem_map] at hr
  obtain ⟨m, _, rfl⟩ := hr
  by_cases h : m.credit_score = none
  · simp [h]
  · simp [h]

/-- Running the backfill over a store with no null-score rows changes
nothing and updates 0 rows. -/
lemma backfill_no_null_rows (ts : String → TxStats)
    (l : List BusinessMetricsRow) (h : ∀ r ∈ l, r.credit_score ≠ none) :
    backfillCreditScores ts l = (l, 0) := by
  simp only [backfillCreditScores, Prod.mk.injEq]
  constructor
  · have hid : (l.map (fun m : BusinessMetricsRow =>
        if m.credit_score = none then
          { m with credit_score := some ((calculateScore m.monthly_revenue m.cash_flow m.profit_margin (ts m.user_id)).score) }
        else m)) = l.map id := by
      apply List.map_congr_left
      intro m hm
      simp [h m hm]
    rw [hid, List.map_id]
  · have hnil : l.filter (fun m => m.credit_score = none) = [] :=
      List.filter_eq_nil_iff.mpr (fun a ha => by simpa using h a ha)
    rw [hnil]
    rfl

/-- C6: the Backfill Job assigns a non-null score to exactly the
null-score rows and leaves every already-scored row untouched, so a
second run over the resulting snapshot set updates 0 rows and changes
nothing. -/
theorem C6_backfill_idempotent (ts ts2 : String → TxStats)
    (store : List BusinessMetricsRow) :
    ((backfillCreditScores ts store).1.length = store.length)
    ∧ (∀ pr ∈ store.zip (backfillCreditScores ts store).1,
        (pr.1.credit_score = none →
          pr.2 = { pr.1 with credit_score := some ((calculateScore pr.1.monthly_revenue pr.1.cash_flow pr.1.profit_margin (ts pr.1.user_id)).score) }
          ∧ pr.2.credit_score ≠ none)
        ∧ (pr.1.credit_score ≠ none → pr.2 = pr.1))
    ∧ (backfillCreditScores ts2 (backfillCreditScores ts store).1).2 = 0
    ∧ (backfillCreditScores ts2 (backfillCreditScores ts store).1).1
      = (backfillCreditScores ts store).1 := by
  have hsecond := backfill_no_null_rows ts2 (backfillCreditScores ts store).1
    (backfill_all_scored ts store)
  refine ⟨by simp [backfillCreditScores], ?_, by rw [hsecond], by rw [hsecond]⟩
  intro pr hpr
  simp only [backfillCreditScores] at hpr
  have h2 := mem_zip_map_self _ store pr hpr
  constructor
  · intro hnone
    rw [h2]
    simp [hnone]
  · intro hsome
    rw [h2]
    simp [hsome]

/-- A snapshot row with null score (claim C6's witness data). -/
def bfRow0 : BusinessMetricsRow := ⟨"u", 0, 0, 0, 0, 0, 0, 0, none⟩

/-- An already-scored snapshot row (claim C6's witness data). -/
def bfRow1 : BusinessMetricsRow := ⟨"v", 0, 0, 0, 0, 0, 0, 0, some 400⟩

/-- A two-row snapshot store: one null-score row, one scored row. -/
def backfillSample : List BusinessMetricsRow := [bfRow0, bfRow1]

/-- C6 witness: the theorem applied to the concrete two-row store — the
second run updates 0 rows, the null row's image carries a non-null
score, and the already-scored row is untouched. -/
theorem C6_witness :
    (backfillCreditScores (fun _ => ⟨0, 0, 0⟩)
        (backfillCreditScores (fun _ => ⟨0, 0, 0⟩) backfillSample).1).2 = 0
    ∧ ({ bfRow0 with credit_score := some ((calculateScore bfRow0.monthly_revenue bfRow0.cash_flow bfRow0.profit_margin ⟨0, 0, 0⟩).score) } : BusinessMetricsRow).credit_score ≠ none
    ∧ (bfRow1, bfRow1).2 = (bfRow1, bfRow1).1 := by
  have h := C6_backfill_idempotent (fun _ => ⟨0, 0, 0⟩) (fun _ => ⟨0, 0, 0⟩)
    backfillSample
  refine ⟨h.2.2.1, ?_, ?_⟩
  · exact ((h.2.1 (bfRow0,
      { bfRow0 with credit_score := some ((calculateScore bfRow0.monthly_revenue bfRow0.cash_flow bfRow0.profit_margin ⟨0, 0, 0⟩).score) })
      (List.mem_cons_self _ _)).1 rfl).2
  · exact (h.2.1 (bfRow1, bfRow1)
      (List.mem_cons_of_mem _ (List.mem_cons_self _ _))).2 (by simp [bfRow1])

/-- C9 counterexample: a run in which every aggregation step and the
commit succeed but the post-commit `refresh` fails (connection lost
between `commit()` and `refresh(metrics)`) raises to the caller
(`isOk = false`) while the snapshot store has gained the committed
row — so an exception during the recompute does *not* imply the store
is unchanged, and a row can be inserted even though the caller receives
a failure. -/
theorem C9_counterexample :
    (updateBusinessMetrics "u" [] (.ok ⟨0, 0, 0, 0⟩) (.ok ⟨0, 0, 0, "low"⟩)
        (.ok ()) (.ok 0) (.ok ⟨0, 0, 0⟩) (.ok ())
        (.error ⟨"connection lost"⟩)).1.isOk = false
    ∧ (updateBusinessMetrics "u" [] (.ok ⟨0, 0, 0, 0⟩) (.ok ⟨0, 0, 0, "low"⟩)
        (.ok ()) (.ok 0) (.ok ⟨0, 0, 0⟩) (.ok ())
        (.error ⟨"connection lost"⟩)).2 ≠ [] := by
  constructor
  · rfl
  · simp [updateBusinessMetrics]

/-- C9 amended: the Metrics Snapshot Writer is atomic *up to the
commit* — if any aggregation or scoring step or the commit itself
fails, the store is unchanged and the caller receives an explicit
failure signal; a successful result means the row was appended; and the
store changes only when the commit succeeded, in which case exactly one
row was appended. A failure of the post-commit `refresh` still
surfaces to the caller, but the already-committed row remains in the
store, so a failure signal alone does not guarantee that no row was
inserted. -/
theorem C9_snapshot_writer_atomic_up_to_commit (userId : String)
    (store : List BusinessMetricsRow) (revenueStep : Except Err RevenueData)
    (riskStep : Except Err RiskData) (txnStep : Except Err Unit)
    (cashFlowStep : Except Err ℚ) (txStatsStep : Except Err TxStats)
    (commitStep : Except Err Unit) (refreshStep : Except Err Unit) :
    ((revenueStep.isOk = false ∨ riskStep.isOk = false ∨ txnStep.isOk = false
        ∨ cashFlowStep.isOk = false ∨ txStatsStep.isOk = false
        ∨ commitStep.isOk = false) →
      (updateBusinessMetrics userId store revenueStep riskStep txnStep
        cashFlowStep txStatsStep commitStep refreshStep).1.isOk = false
      ∧ (updateBusinessMetrics userId store revenueStep riskStep txnStep
          cashFlowStep txStatsStep commitStep refreshStep).2 = store)
    ∧ (∀ snap, (updateBusinessMetrics userId store revenueStep riskStep txnStep
          cashFlowStep txStatsStep commitStep refreshStep).1 = .ok snap →
        (updateBusinessMetrics userId store revenueStep riskStep txnStep
          cashFlowStep txStatsStep commitStep refreshStep).2 = store ++ [snap])
    ∧ ((updateBusinessMetrics userId store revenueStep riskStep txnStep
          cashFlowStep txStatsStep commitStep refreshStep).2 ≠ store →
        commitStep.isOk = true
        ∧ ∃ snap, (updateBusinessMetrics userId store revenueStep riskStep txnStep
            cashFlowStep txStatsStep commitStep refreshStep).2 = store ++ [snap])
    ∧ ((updateBusinessMetrics userId store revenueStep riskStep txnStep
          cashFlowStep txStatsStep commitStep refreshStep).1.isOk = true →
        refreshStep.isOk = true) := by
  cases revenueStep <;> cases riskStep <;> cases txnStep <;> cases cashFlowStep <;>
    cases txStatsStep <;> cases commitStep <;> cases refreshStep <;>
    simp [updateBusinessMetrics, Except.isOk, Except.toBool]

/-- C9 witness: the amended theorem applied with a failing revenue step
over the empty store (store unchanged, failure signalled) and with an
all-successful run (row appended). -/
theorem C9_witness :
    ((updateBusinessMetrics "u" [] (.error ⟨"storage unreachable"⟩)
        (.ok ⟨0, 0, 0, "low"⟩) (.ok ()) (.ok 0) (.ok ⟨0, 0, 0⟩) (.ok ())
        (.ok ())).2 = []
    ∧ (updateBusinessMetrics "u" [] (.error ⟨"storage unreachable"⟩)
        (.ok ⟨0, 0, 0, "low"⟩) (.ok ()) (.ok 0) (.ok ⟨0, 0, 0⟩) (.ok ())
        (.ok ())).1.isOk = false)
    ∧ (updateBusinessMetrics "u" [] (.ok ⟨0, 0, 0, 0⟩) (.ok ⟨0, 0, 0, "low"⟩)
        (.ok ()) (.ok 0) (.ok ⟨0, 0, 0⟩) (.ok ()) (.ok ())).2
      = [] ++ [⟨"u", 0, 0, 1/5, 0, 0, 0, 0,
          some ((calculateScore 0 0 (1/5) ⟨0, 0, 0⟩).score)⟩] := by
  have h := C9_snapshot_writer_atomic_up_to_commit "u" []
    (.error ⟨"storage unreachable"⟩) (.ok ⟨0, 0, 0, "low"⟩) (.ok ()) (.ok 0)
    (.ok ⟨0, 0, 0⟩) (.ok ()) (.ok ())
  have h2 := C9_snapshot_writer_atomic_up_to_commit "u" [] (.ok ⟨0, 0, 0, 0⟩)
    (.ok ⟨0, 0, 0, "low"⟩) (.ok ()) (.ok 0) (.ok ⟨0, 0, 0⟩) (.ok ()) (.ok ())
  exact ⟨⟨(h.1 (Or.inl rfl)).2, (h.1 (Or.inl rfl)).1⟩, h2.2.1 _ rfl⟩

/-- C10: every snapshot the writer produces has `profit_margin` exactly
0.20 and `monthly_expenses` exactly 0, regardless of the transaction
data, and therefore its profit-margin contribution to the credit score
is exactly +50 (the +100 band needs `profit_margin > 0.2` strictly). -/
theorem C10_writer_snapshot_profit_margin (userId : String)
    (store : List BusinessMetricsRow) (revenueStep : Except Err RevenueData)
    (riskStep : Except Err RiskData) (txnStep : Except Err Unit)
    (cashFlowStep : Except Err ℚ) (txStatsStep : Except Err TxStats)
    (commitStep : Except Err Unit) (refreshStep : Except Err Unit)
    (snap : BusinessMetricsRow)
    (h : (updateBusinessMetrics userId store revenueStep riskStep txnStep
        cashFlowStep txStatsStep commitStep refreshStep).1 = .ok snap) :
    snap.profit_margin = 1/5 ∧ snap.monthly_expenses = 0
    ∧ profitMarginImpact snap.profit_margin = 50 := by
  cases revenueStep <;> cases riskStep <;> cases txnStep <;> cases cashFlowStep <;>
    cases txStatsStep <;> cases commitStep <;> cases refreshStep <;>
    simp only [updateBusinessMetrics] at h <;> cases h
  refine ⟨rfl, rfl, ?_⟩
  norm_num [profitMarginImpact]

/-- C10 witness: the theorem applied to a successful run over the empty
store. -/
theorem C10_witness :
    ((⟨"u", 0, 0, 1/5, 0, 0, 0, 0,
        some ((calculateScore 0 0 (1/5) ⟨0, 0, 0⟩).score)⟩ :
      BusinessMetricsRow).profit_margin = 1/5)
    ∧ ((⟨"u", 0, 0, 1/5, 0, 0, 0, 0,
          some ((calculateScore 0 0 (1/5) ⟨0, 0, 0⟩).score)⟩ :
        BusinessMetricsRow).monthly_expenses = 0)
    ∧ profitMarginImpact (⟨"u", 0, 0, 1/5, 0, 0, 0, 0,
          some ((calculateScore 0 0 (1/5) ⟨0, 0, 0⟩).score)⟩ :
        BusinessMetricsRow).profit_margin = 50 :=
  C10_writer_snapshot_profit_margin "u" [] (.ok ⟨0, 0, 0, 0⟩)
    (.ok ⟨0, 0, 0, "low"⟩) (.ok ()) (.ok 0) (.ok ⟨0, 0, 0⟩) (.ok ()) (.ok ()) _ rfl

end Analytics
